import Mathlib

/-
  Verification of the Local Encrypted Wallet Vault and Portfolio Aggregator
  of the Vollet wallet application.

  The embedding models src/src/app/dashboard/page.tsx: the portfolio
  aggregation (totalBalance, totalChange, totalChangePercent), the manual-add
  handler (handleAddWallet) and the generated-wallet creation handler
  (handleCreateWallet).  JavaScript numbers are modelled as `Option ℚ`:
  `some q` is a finite double and `none` collapses the non-finite values
  (NaN and the two infinities).  The dashboard only ever compares or divides
  values that are finite in the flows verified here, so the collapse is
  observationally exact for those flows.
-/

namespace Vollet

/-- A JavaScript number: `some q` is a finite value, `none` a non-finite one
(NaN or an infinity). -/
abbrev JSNum := Option ℚ

/-- JavaScript addition: finite plus finite is exact; any non-finite operand
yields a non-finite result (NaN propagates; Inf + finite = Inf;
Inf + (-Inf) = NaN). -/
def jadd : JSNum → JSNum → JSNum
  | some a, some b => some (a + b)
  | _, _ => none

/-- JavaScript subtraction, same collapse as `jadd`. -/
def jsub : JSNum → JSNum → JSNum
  | some a, some b => some (a - b)
  | _, _ => none

/-- JavaScript multiplication: a non-finite operand always yields a
non-finite result (NaN * x = NaN, Inf * 0 = NaN, Inf * x = Inf). -/
def jmul : JSNum → JSNum → JSNum
  | some a, some b => some (a * b)
  | _, _ => none

/-- JavaScript division.  A zero denominator with a finite numerator gives
Infinity (numerator nonzero) or NaN (0 / 0), both non-finite, hence `none`.
A non-finite operand is mapped to `none`; this is exact for the dashboard,
which only divides by `totalBalance - totalChange`, a value that is finite
whenever the record fields feeding it are. -/
def jdiv : JSNum → JSNum → JSNum
  | some a, some b => if b = 0 then none else some (a / b)
  | _, _ => none

/-- JavaScript `>` comparison.  A NaN operand compares false; an infinite
operand is also mapped to false, which agrees with the observable outcome of
the one guard that uses it (`totalBalance > 0`) whenever the record fields
are finite. -/
def jgt : JSNum → JSNum → Bool
  | some a, some b => decide (b < a)
  | _, _ => false

/-- Consume the longest prefix of decimal digits, returning their values and
the rest of the input. -/
def takeDigits : List Char → List ℕ × List Char
  | [] => ([], [])
  | c :: cs =>
    if c.isDigit then
      let (ds, rest) := takeDigits cs
      ((c.toNat - 48) :: ds, rest)
    else ([], c :: cs)

/-- The natural number denoted by a list of digit values, most significant
first. -/
def digitsToNat (ds : List ℕ) : ℕ := ds.foldl (fun a d => 10 * a + d) 0

/-- `Number.parseFloat` on the dashboard form strings: an optional sign, then
the longest prefix that is decimal digits with at most one point.  If no
digit is consumed the JavaScript result is NaN, i.e. `none`.  (Exponent
notation and the literal Infinity, which no dashboard flow produces, are not
finite in this model either way.) -/
def parseFloat (s : String) : JSNum :=
  let cs := s.toList
  let signAndRest : ℚ × List Char :=
    match cs with
    | '-' :: rest => (-1, rest)
    | '+' :: rest => (1, rest)
    | _ => (1, cs)
  let (ip, afterInt) := takeDigits signAndRest.2
  let fp : List ℕ :=
    match afterInt with
    | '.' :: rest => (takeDigits rest).1
    | _ => []
  if ip.isEmpty ∧ fp.isEmpty then none
  else some (signAndRest.1 * ((digitsToNat ip : ℚ) + (digitsToNat fp : ℚ) / (10 : ℚ) ^ fp.length))

/-- The closed network set of the dashboard. -/
inductive Network
  | ethereum
  | bnb
  deriving DecidableEq, Repr

/-- A token-balance entry of a wallet record (informational). -/
structure Token where
  symbol : String
  name : String
  balance : JSNum
  balanceUSD : JSNum
  price : JSNum
  change24h : JSNum
  deriving DecidableEq, Repr

/-- Direction of a transaction entry. -/
inductive TxType
  | send
  | receive
  deriving DecidableEq, Repr

/-- Status of a transaction entry. -/
inductive TxStatus
  | pending
  | confirmed
  | failed
  deriving DecidableEq, Repr

/-- A transaction entry of a wallet record (informational). -/
structure Transaction where
  id : String
  type : TxType
  amount : JSNum
  symbol : String
  toAddr : Option String
  fromAddr : Option String
  timestamp : ℕ
  status : TxStatus
  hash : String
  deriving DecidableEq, Repr

/-- Modelled from the spec: the output of the Passphrase Cipher
(src/lib/crypto is not among the sources; only its caller is).  The spec
describes an algorithm tag, a per-record salt, an initialization value, the
ciphertext and an integrity tag; the core treats the whole blob opaquely. -/
structure EncryptedBlob where
  version : String
  salt : String
  iv : String
  ciphertext : String
  tag : String
  deriving DecidableEq, Repr

/-- The durable wallet record (the WalletType persisted through
src/lib/accountDb): the dashboard interface fields plus the two optional
encrypted blobs that handleCreateWallet assigns. -/
structure Wallet where
  id : String
  name : String
  address : String
  network : Network
  balance : JSNum
  balanceUSD : JSNum
  change24h : JSNum
  changePercent24h : JSNum
  tokens : List Token
  transactions : List Transaction
  encryptedPrivateKey : Option EncryptedBlob := none
  encryptedMnemonic : Option EncryptedBlob := none
  deriving DecidableEq, Repr

/-- Failure of a Store insertion. -/
inductive StoreErr
  | duplicateId
  deriving DecidableEq, Repr

/-- Modelled from the spec: the Wallet Record Store insert used by both
handlers through saveWallet (src/lib/accountDb is not among the sources;
only its callers are).  Atomic: either the record is appended in insertion
order, or a duplicate id is rejected and the collection is unchanged. -/
def insertWallet (st : List Wallet) (w : Wallet) : Except StoreErr (List Wallet) :=
  if st.any (fun x => x.id = w.id) then .error .duplicateId else .ok (st ++ [w])

/-- Line 139 of the dashboard: the reduce summing balanceUSD from 0. -/
def totalBalance (ws : List Wallet) : JSNum :=
  ws.foldl (fun sum w => jadd sum w.balanceUSD) (some 0)

/-- Line 140 of the dashboard: the reduce summing change24h from 0. -/
def totalChange (ws : List Wallet) : JSNum :=
  ws.foldl (fun sum w => jadd sum w.change24h) (some 0)

/-- Line 141 of the dashboard:
totalBalance > 0 ? totalChange / (totalBalance - totalChange) * 100 : 0. -/
def totalChangePercent (ws : List Wallet) : JSNum :=
  if jgt (totalBalance ws) (some 0) then
    jmul (jdiv (totalChange ws) (jsub (totalBalance ws) (totalChange ws))) (some 100)
  else some 0

/-- The newWalletForm state feeding handleAddWallet.  The balance fields are
the raw input strings; the network select always holds a member of the
closed set. -/
structure AddForm where
  name : String
  address : String
  network : Network
  balance : String
  balanceUSD : String
  deriving DecidableEq, Repr

/-- Observable outcome of handleAddWallet. -/
inductive AddOutcome
  /-- The truthiness guard failed (an empty required field, or db is null):
  the handler returns early; nothing is surfaced to the user. -/
  | silentReturn
  /-- saveWallet threw: the catch block only calls console.error; the
  collection is unchanged and nothing is surfaced to the user. -/
  | saveFailedLogged (e : StoreErr)
  /-- The record was persisted and appended to the wallets state. -/
  | added (w : Wallet)
  deriving DecidableEq, Repr

/-- handleAddWallet (dashboard lines 168 to 208).  The guard tests JavaScript
truthiness of name, address, balance, balanceUSD and db (an empty string is
falsy; the network select is never empty).  The balances are parsed with
Number.parseFloat with no check of the result, the record gets
id = Date.now().toString(), zero change fields, empty token and transaction
lists and no encrypted fields, and is saved then appended to the state. -/
def handleAddWallet (form : AddForm) (dbPresent : Bool) (now : ℕ)
    (st : List Wallet) : List Wallet × AddOutcome :=
  if form.name = "" ∨ form.address = "" ∨ form.balance = "" ∨ form.balanceUSD = "" ∨
      dbPresent = false then
    (st, .silentReturn)
  else
    let newWallet : Wallet :=
      { id := toString now
        name := form.name
        address := form.address
        network := form.network
        balance := parseFloat form.balance
        balanceUSD := parseFloat form.balanceUSD
        change24h := some 0
        changePercent24h := some 0
        tokens := []
        transactions := [] }
    match insertWallet st newWallet with
    | .ok st2 => (st2, .added newWallet)
    | .error e => (st, .saveFailedLogged e)

/-- The createWalletForm state feeding handleCreateWallet. -/
structure CreateForm where
  name : String
  network : Network
  passphrase : String
  deriving DecidableEq, Repr

/-- The external generation provider response: address plus the optional raw
secret material.  A missing field is `none`; JavaScript truthiness also
treats an empty string as missing. -/
structure ProviderResponse where
  address : String
  key : Option String
  mnemonic : Option String
  deriving DecidableEq, Repr

/-- The usable secret key of a provider response under JavaScript
truthiness: `none` when the key field is absent or the empty string. -/
def usableKey (resp : ProviderResponse) : Option String :=
  match resp.key with
  | some k => if k = "" then none else some k
  | none => none

/-- Whether a provider response carries a mnemonic under JavaScript
truthiness (the guard `newWallet.mnemonic && true` of line 245). -/
def hasMnemonic (resp : ProviderResponse) : Bool :=
  match resp.mnemonic with
  | some m => decide (m ≠ "")
  | none => false

/-- Typed classification of the errors caught by handleCreateWallet. -/
inductive CreateErr
  /-- The provider call (cryptoWebApiClient.createWallet) rejected. -/
  | providerError
  /-- The response lacks a usable key: throw new Error at line 237. -/
  | malformedResponse
  /-- saveWallet threw (a duplicate id in the spec-modelled Store). -/
  | storeError
  deriving DecidableEq, Repr

/-- The one-time plaintext disclosure payload: the shape of the
newlyCreatedWallet state (dashboard lines 95 to 101 and 272 to 278). -/
structure Disclosed where
  address : String
  privateKey : String
  mnemonic : Option String
  network : Network
  name : String
  deriving DecidableEq, Repr

/-- The component state touched by the creation flow: the wallets list and
the newlyCreatedWallet success-screen state. -/
structure CreateState where
  wallets : List Wallet
  newlyCreatedWallet : Option Disclosed
  deriving DecidableEq, Repr

/-- Observable outcome of handleCreateWallet. -/
inductive CreateOutcome
  /-- The truthiness guard failed: early return, nothing surfaced. -/
  | silentReturn
  /-- An error was thrown and caught: the catch block shows the user an
  alert with the error message. -/
  | alerted (e : CreateErr)
  /-- The record was persisted and the disclosure payload stored for the
  success modal. -/
  | created (w : Wallet) (d : Disclosed)
  deriving DecidableEq, Repr

/-- handleCreateWallet (dashboard lines 219 to 297).  The provider call and
the Cipher are external collaborators, passed as the response value (or a
provider failure) and the seal function.  On a usable key, the key and (if
truthy) the mnemonic are sealed under the passphrase of the form, a record
with id = Date.now().toString(), zero balances, empty lists and the
encrypted blobs is saved and appended, and the plaintext payload is stored
in newlyCreatedWallet for the success modal.  Every thrown error lands in
the catch block, which alerts the user; the state is then unchanged. -/
def handleCreateWallet (form : CreateForm) (dbPresent : Bool)
    (provider : Except Unit ProviderResponse)
    (cipherSeal : String → String → EncryptedBlob)
    (now : ℕ) (st : CreateState) : CreateState × CreateOutcome :=
  if form.name = "" ∨ form.passphrase = "" ∨ dbPresent = false then
    (st, .silentReturn)
  else
    match provider with
    | .error _ => (st, .alerted .providerError)
    | .ok resp =>
      match usableKey resp with
      | none => (st, .alerted .malformedResponse)
      | some k =>
        let encryptedPrivateKey := cipherSeal k form.passphrase
        let encryptedMnemonic : Option EncryptedBlob :=
          match resp.mnemonic with
          | some m => if m = "" then none else some (cipherSeal m form.passphrase)
          | none => none
        let walletData : Wallet :=
          { id := toString now
            name := form.name
            address := resp.address
            network := form.network
            balance := some 0
            balanceUSD := some 0
            change24h := some 0
            changePercent24h := some 0
            tokens := []
            transactions := []
            encryptedPrivateKey := some encryptedPrivateKey
            encryptedMnemonic := encryptedMnemonic }
        match insertWallet st.wallets walletData with
        | .error _ => (st, .alerted .storeError)
        | .ok ws =>
          let disclosed : Disclosed :=
            { address := resp.address
              privateKey := k
              mnemonic := resp.mnemonic
              network := form.network
              name := form.name }
          ({ wallets := ws, newlyCreatedWallet := some disclosed },
           .created walletData disclosed)

/-- Dismissing the success modal (dashboard lines 922 to 925): the
disclosure state is reset to null; the wallets list is untouched. -/
def dismissSuccessModal (st : CreateState) : CreateState :=
  { st with newlyCreatedWallet := none }

/-- Follows the words of the spec, for comparison with the source
aggregation: totalChange / (totalValue - totalChange) * 100 when
totalValue > 0, else 0, as a total function on exact rationals. -/
def specTotalChangePercent (totalValue totalChange : ℚ) : ℚ :=
  if 0 < totalValue then totalChange / (totalValue - totalChange) * 100 else 0

/-- The record that a successful handleCreateWallet run with usable key `k`
persists: the walletData literal of dashboard lines 250 to 263. -/
def createdWallet (form : CreateForm) (resp : ProviderResponse) (k : String)
    (cipherSeal : String → String → EncryptedBlob) (now : ℕ) : Wallet :=
  { id := toString now
    name := form.name
    address := resp.address
    network := form.network
    balance := some 0
    balanceUSD := some 0
    change24h := some 0
    changePercent24h := some 0
    tokens := []
    transactions := []
    encryptedPrivateKey := some (cipherSeal k form.passphrase)
    encryptedMnemonic :=
      match resp.mnemonic with
      | some m => if m = "" then none else some (cipherSeal m form.passphrase)
      | none => none }

/-- The disclosure payload that a successful handleCreateWallet run stores in
newlyCreatedWallet (dashboard lines 272 to 278). -/
def disclosedOf (form : CreateForm) (resp : ProviderResponse) (k : String) : Disclosed :=
  { address := resp.address
    privateKey := k
    mnemonic := resp.mnemonic
    network := form.network
    name := form.name }

/-- A concrete record whose whole fiat value appeared within the last day:
yesterday it was worth nothing (balanceUSD = change24h = 100). -/
def allGainWallet : Wallet :=
  { id := "1", name := "W", address := "0xaa", network := .ethereum,
    balance := some 1, balanceUSD := some 100, change24h := some 100,
    changePercent24h := some 0, tokens := [], transactions := [] }

/-- A second concrete record with balanceUSD = change24h, for the aggregation
formula counterexample (balanceUSD = change24h = 200). -/
def equalChangeWallet : Wallet :=
  { id := "2", name := "V", address := "0xbb", network := .bnb,
    balance := some 2, balanceUSD := some 200, change24h := some 200,
    changePercent24h := some 0, tokens := [], transactions := [] }

/-- First record of the spec aggregation test vector: balanceUSD = 100,
change24h = 10. -/
def vecWallet1 : Wallet :=
  { id := "a", name := "A", address := "0xa1", network := .ethereum,
    balance := some 1, balanceUSD := some 100, change24h := some 10,
    changePercent24h := some 0, tokens := [], transactions := [] }

/-- Second record of the spec aggregation test vector: balanceUSD = 250,
change24h = -5. -/
def vecWallet2 : Wallet :=
  { id := "b", name := "B", address := "0xb2", network := .bnb,
    balance := some 2, balanceUSD := some 250, change24h := some (-5),
    changePercent24h := some 0, tokens := [], transactions := [] }

/-- A manual-add form whose balance field is non-empty but not a number. -/
def cexAddForm : AddForm :=
  { name := "W", address := "0x1", network := .ethereum,
    balance := "abc", balanceUSD := "300.00" }

/-- The record that handleAddWallet persists from `cexAddForm`: its balance
is NaN. -/
def cexNaNWallet : Wallet :=
  { id := "0", name := "W", address := "0x1", network := .ethereum,
    balance := none, balanceUSD := some 300, change24h := some 0,
    changePercent24h := some 0, tokens := [], transactions := [] }

/-- A concrete stand-in for the external Cipher in counterexample runs. -/
def cexSealA : String → String → EncryptedBlob :=
  fun s p => { version := "v1", salt := "s0", iv := "i0",
               ciphertext := String.append s p, tag := "t0" }

/-- A second concrete Cipher stand-in. -/
def cexSealB : String → String → EncryptedBlob :=
  fun s p => { version := "v2", salt := "s1", iv := "i1",
               ciphertext := String.append p s, tag := "t1" }

/-- A component state already holding a record whose id is the string "5",
colliding with a creation at Date.now() = 5. -/
def cexDupState : CreateState :=
  { wallets := [{ id := "5", name := "Old", address := "0xold", network := .bnb,
                  balance := some 0, balanceUSD := some 0, change24h := some 0,
                  changePercent24h := some 0, tokens := [], transactions := [] }],
    newlyCreatedWallet := none }

/-- The newWallet record that handleAddWallet builds from a form that passes
the truthiness guard (dashboard lines 178 to 189). -/
def manualWallet (form : AddForm) (now : ℕ) : Wallet :=
  { id := toString now
    name := form.name
    address := form.address
    network := form.network
    balance := parseFloat form.balance
    balanceUSD := parseFloat form.balanceUSD
    change24h := some 0
    changePercent24h := some 0
    tokens := []
    transactions := [] }

/-- The manual-add form of the spec end-to-end vector. -/
def addVecForm : AddForm :=
  { name := "W2", address := "0xdef", network := .bnb,
    balance := "1.5", balanceUSD := "300.00" }

/-- The provider stub of the spec end-to-end creation vector. -/
def stubResp : ProviderResponse :=
  { address := "0xabc", key := some "k1", mnemonic := some "m1 m2" }

/-- A manual-add form whose balance field is empty. -/
def emptyBalForm : AddForm :=
  { name := "W", address := "0x1", network := .ethereum,
    balance := "", balanceUSD := "300.00" }

/-- A record whose id is the string "5", colliding with cexDupState. -/
def cexDupWallet : Wallet :=
  { id := "5", name := "New", address := "0xnew", network := .ethereum,
    balance := some 0, balanceUSD := some 0, change24h := some 0,
    changePercent24h := some 0, tokens := [], transactions := [] }

lemma charToNat0 : ('0').toNat = 48 := rfl

lemma charToNat1 : ('1').toNat = 49 := rfl

lemma charToNat2 : ('2').toNat = 50 := rfl

lemma charToNat3 : ('3').toNat = 51 := rfl

lemma charToNat5 : ('5').toNat = 53 := rfl

/-- Summing a column of finite values with jadd from a finite accumulator is
exact rational summation. -/
lemma foldl_jadd (f : Wallet → JSNum) (l : List Wallet) (qs : List ℚ) (a : ℚ)
    (h : l.map f = qs.map some) :
    l.foldl (fun s w => jadd s (f w)) (some a) = some (a + qs.sum) := by
  induction l generalizing qs a with
  | nil =>
    cases qs with
    | nil => simp
    | cons q qs => simp at h
  | cons w l ih =>
    cases qs with
    | nil => simp at h
    | cons q qs =>
      simp only [List.map_cons, List.cons.injEq] at h
      obtain ⟨h1, h2⟩ := h
      have step : jadd (some a) (f w) = some (a + q) := by rw [h1]; rfl
      simp only [List.foldl_cons, step, List.sum_cons]
      rw [ih qs (a + q) h2, add_assoc]

/-- C6: the aggregate of the empty wallet collection is totalValue = 0,
totalChange = 0 and totalChangePercent = 0; the guard takes the else branch,
so the division is never reached. -/
theorem aggregate_empty_zero :
    totalBalance [] = some 0 ∧ totalChange [] = some 0 ∧
    totalChangePercent [] = some 0 := by
  refine ⟨rfl, rfl, ?_⟩
  norm_num [totalChangePercent, totalBalance, jgt]

/-- C9: for the one-record collection allGainWallet, totalBalance = 100 > 0
passes the guard, totalChange equals totalBalance, the denominator
totalBalance - totalChange is zero, and the resulting percentage is a
non-finite JavaScript number. -/
theorem percent_guard_gap :
    jgt (totalBalance [allGainWallet]) (some 0) = true ∧
    totalChange [allGainWallet] = totalBalance [allGainWallet] ∧
    jsub (totalBalance [allGainWallet]) (totalChange [allGainWallet]) = some 0 ∧
    totalChangePercent [allGainWallet] = none := by
  refine ⟨?_, ?_, ?_, ?_⟩ <;>
    norm_num [totalBalance, totalChange, totalChangePercent, allGainWallet,
      jgt, jsub, jdiv, jmul, jadd]

/-- C3, counterexample: for the one-record collection equalChangeWallet the
guard passes (totalValue = 200 > 0) but the computed percentage is a
non-finite JavaScript number, not the rational value of the spec formula. -/
theorem aggregate_formula_gap_cex :
    jgt (totalBalance [equalChangeWallet]) (some 0) = true ∧
    totalChangePercent [equalChangeWallet] = none ∧
    totalChangePercent [equalChangeWallet] ≠ some (specTotalChangePercent 200 200) := by
  have h2 : totalChangePercent [equalChangeWallet] = none := by
    norm_num [totalBalance, totalChange, totalChangePercent, equalChangeWallet,
      jgt, jsub, jdiv, jmul, jadd]
  refine ⟨?_, h2, ?_⟩
  · norm_num [totalBalance, equalChangeWallet, jgt, jadd]
  · rw [h2]
    simp

/-- C3, amended: over records whose balanceUSD and change24h columns are all
finite, totalBalance and totalChange are the exact rational sums, and
totalChangePercent matches the spec formula whenever totalValue ≤ 0 (the
zero-guard) or totalValue > 0 with totalValue ≠ totalChange; at
totalValue = totalChange > 0 the code divides by zero instead (see the
counterexample). -/
theorem aggregate_matches_spec (ws : List Wallet) (bs cs : List ℚ)
    (hb : ws.map Wallet.balanceUSD = bs.map some)
    (hc : ws.map Wallet.change24h = cs.map some) :
    totalBalance ws = some bs.sum ∧ totalChange ws = some cs.sum ∧
    (bs.sum ≤ 0 → totalChangePercent ws = some 0) ∧
    (0 < bs.sum → bs.sum ≠ cs.sum →
      totalChangePercent ws = some (specTotalChangePercent bs.sum cs.sum)) := by
  have hB : totalBalance ws = some bs.sum := by
    simpa [totalBalance] using foldl_jadd Wallet.balanceUSD ws bs 0 hb
  have hC : totalChange ws = some cs.sum := by
    simpa [totalChange] using foldl_jadd Wallet.change24h ws cs 0 hc
  refine ⟨hB, hC, ?_, ?_⟩
  · intro hle
    have hg : jgt (totalBalance ws) (some 0) = false := by
      rw [hB]
      simpa [jgt] using not_lt.mpr hle
    simp [totalChangePercent, hg]
  · intro hpos hne
    have hg : jgt (totalBalance ws) (some 0) = true := by
      rw [hB]
      simpa [jgt] using hpos
    have hd : ¬ bs.sum - cs.sum = 0 := sub_ne_zero.mpr hne
    unfold totalChangePercent
    rw [hg, hB, hC]
    simp only [if_true, jsub, jdiv, jmul]
    rw [if_neg hd]
    simp only [jmul, specTotalChangePercent]
    rw [if_pos hpos]

/-- C3, witness: the spec test vector balanceUSD = [100, 250] and
change24h = [10, -5] yields totalValue = 350, totalChange = 5 and
totalChangePercent = 5 / 345 * 100. -/
theorem aggregate_matches_spec_witness :
    totalBalance [vecWallet1, vecWallet2] = some 350 ∧
    totalChange [vecWallet1, vecWallet2] = some 5 ∧
    totalChangePercent [vecWallet1, vecWallet2] = some (5 / 345 * 100) := by
  have h := aggregate_matches_spec [vecWallet1, vecWallet2] [100, 250] [10, -5]
    (by simp [vecWallet1, vecWallet2]) (by simp [vecWallet1, vecWallet2])
  obtain ⟨h1, h2, -, h4⟩ := h
  have hs1 : ([100, 250] : List ℚ).sum = 350 := by norm_num
  have hs2 : ([10, -5] : List ℚ).sum = 5 := by norm_num
  rw [hs1] at h1 h4
  rw [hs2] at h2 h4
  have h5 := h4 (by norm_num) (by norm_num)
  refine ⟨h1, h2, ?_⟩
  rw [h5]
  norm_num [specTotalChangePercent]

/-- A creation run whose guard passes, whose provider returns a usable key
and whose identifier is fresh in the Store persists createdWallet and stores
disclosedOf in newlyCreatedWallet. -/
lemma handleCreateWallet_success (form : CreateForm) (resp : ProviderResponse)
    (k : String) (cipherSeal : String → String → EncryptedBlob) (now : ℕ)
    (st : CreateState)
    (hname : form.name ≠ "") (hpass : form.passphrase ≠ "")
    (hkey : usableKey resp = some k)
    (hfresh : ∀ w ∈ st.wallets, w.id ≠ toString now) :
    handleCreateWallet form true (.ok resp) cipherSeal now st =
      ({ wallets := st.wallets ++ [createdWallet form resp k cipherSeal now],
         newlyCreatedWallet := some (disclosedOf form resp k) },
       .created (createdWallet form resp k cipherSeal now) (disclosedOf form resp k)) := by
  have hany : (st.wallets.any fun x => x.id = toString now) = false := by
    rw [List.any_eq_false]
    intro x hx
    simpa using hfresh x hx
  simp only [handleCreateWallet, hkey, insertWallet, createdWallet, disclosedOf,
    hname, hpass, hany, Bool.false_eq_true, if_false, or_false, or_self,
    ite_false]
  simp [hname, hpass, hany]

/-- C1: a creation request whose provider returns a usable key persists
exactly one new record: its address is the provider address, its balances
and change fields are zero, its token and transaction lists are empty, its
encryptedPrivateKey is the Cipher seal of the provider key under the
passphrase of the form, and its encryptedMnemonic is present if and only if
the provider returned a (truthy) mnemonic, in which case it is the separate
seal of that mnemonic. -/
theorem createGeneratedWallet_persists_sealed_record (form : CreateForm)
    (resp : ProviderResponse) (k : String)
    (cipherSeal : String → String → EncryptedBlob) (now : ℕ) (st : CreateState)
    (hname : form.name ≠ "") (hpass : form.passphrase ≠ "")
    (hkey : usableKey resp = some k)
    (hfresh : ∀ w ∈ st.wallets, w.id ≠ toString now) :
    ∃ w d, handleCreateWallet form true (.ok resp) cipherSeal now st =
        ({ wallets := st.wallets ++ [w], newlyCreatedWallet := some d },
         .created w d) ∧
      w.address = resp.address ∧
      w.balance = some 0 ∧ w.balanceUSD = some 0 ∧
      w.change24h = some 0 ∧ w.changePercent24h = some 0 ∧
      w.tokens = [] ∧ w.transactions = [] ∧
      w.encryptedPrivateKey = some (cipherSeal k form.passphrase) ∧
      (w.encryptedMnemonic.isSome = true ↔ hasMnemonic resp = true) ∧
      ∀ m, resp.mnemonic = some m → m ≠ "" →
        w.encryptedMnemonic = some (cipherSeal m form.passphrase) := by
  refine ⟨createdWallet form resp k cipherSeal now, disclosedOf form resp k,
    handleCreateWallet_success form resp k cipherSeal now st hname hpass hkey hfresh,
    rfl, rfl, rfl, rfl, rfl, rfl, rfl, rfl, ?_, ?_⟩
  · unfold createdWallet hasMnemonic
    cases h : resp.mnemonic with
    | none => simp
    | some m =>
      by_cases hm : m = "" <;> simp [hm]
  · intro m hm hne
    unfold createdWallet
    rw [hm]
    simp [hne]

/-- C1, witness: the spec creation vector against the stub provider response
(address 0xabc, key k1, mnemonic m1 m2). -/
theorem createGeneratedWallet_persists_sealed_record_witness :
    ∃ w d, handleCreateWallet { name := "W1", network := .ethereum, passphrase := "pw123" }
        true (.ok stubResp) cexSealA 7 { wallets := [], newlyCreatedWallet := none } =
        ({ wallets := [] ++ [w], newlyCreatedWallet := some d }, .created w d) ∧
      w.address = "0xabc" ∧
      w.encryptedPrivateKey = some (cexSealA "k1" "pw123") ∧
      w.encryptedMnemonic = some (cexSealA "m1 m2" "pw123") := by
  obtain ⟨w, d, heq, haddr, -, -, -, -, -, -, hpk, -, hmn⟩ :=
    createGeneratedWallet_persists_sealed_record
      { name := "W1", network := .ethereum, passphrase := "pw123" } stubResp "k1"
      cexSealA 7 { wallets := [], newlyCreatedWallet := none }
      (by decide) (by decide) (by decide) (by simp)
  exact ⟨w, d, heq, by simpa [stubResp] using haddr, hpk,
    hmn "m1 m2" (by decide) (by decide)⟩

/-- C2: a creation request whose provider response lacks a usable secret key
fails with the distinct malformed-response error, which the catch block
surfaces to the user as an alert; the component state (in particular the
wallet collection) is unchanged, and the result does not depend on the
Cipher, so no encryption is attempted. -/
theorem missing_key_malformed_response (form : CreateForm)
    (resp : ProviderResponse) (now : ℕ) (st : CreateState)
    (s1 s2 : String → String → EncryptedBlob)
    (hname : form.name ≠ "") (hpass : form.passphrase ≠ "")
    (hkey : usableKey resp = none) :
    handleCreateWallet form true (.ok resp) s1 now st = (st, .alerted .malformedResponse) ∧
    handleCreateWallet form true (.ok resp) s1 now st =
      handleCreateWallet form true (.ok resp) s2 now st := by
  have h : ∀ s : String → String → EncryptedBlob,
      handleCreateWallet form true (.ok resp) s now st =
        (st, .alerted .malformedResponse) := by
    intro s
    simp [handleCreateWallet, hkey, hname, hpass]
  exact ⟨h s1, by rw [h s1, h s2]⟩

/-- C2, witness: a provider stub without a key field makes the creation fail
with the malformed-response alert, with the state unchanged and the outcome
identical under two different Ciphers. -/
theorem missing_key_malformed_response_witness :
    handleCreateWallet { name := "W1", network := .ethereum, passphrase := "pw123" }
        true (.ok { address := "0xabc", key := none, mnemonic := none }) cexSealA 7
        { wallets := [], newlyCreatedWallet := none } =
      ({ wallets := [], newlyCreatedWallet := none }, .alerted .malformedResponse) ∧
    handleCreateWallet { name := "W1", network := .ethereum, passphrase := "pw123" }
        true (.ok { address := "0xabc", key := none, mnemonic := none }) cexSealA 7
        { wallets := [], newlyCreatedWallet := none } =
      handleCreateWallet { name := "W1", network := .ethereum, passphrase := "pw123" }
        true (.ok { address := "0xabc", key := none, mnemonic := none }) cexSealB 7
        { wallets := [], newlyCreatedWallet := none } :=
  missing_key_malformed_response
    { name := "W1", network := .ethereum, passphrase := "pw123" }
    { address := "0xabc", key := none, mnemonic := none } 7
    { wallets := [], newlyCreatedWallet := none } cexSealA cexSealB
    (by decide) (by decide) (by decide)

/-- C8, counterexample: after a successful creation returns, the plaintext
private key k1 and mnemonic m1 m2 are still held in the long-lived
newlyCreatedWallet component state, outside the call stack of the creation
operation (they stay there until the success modal is dismissed). -/
theorem plaintext_retained_in_state_cex :
    ((handleCreateWallet { name := "W1", network := .ethereum, passphrase := "pw123" }
        true (.ok stubResp) cexSealB 7
        { wallets := [], newlyCreatedWallet := none }).1).newlyCreatedWallet =
      some { address := "0xabc", privateKey := "k1", mnemonic := some "m1 m2",
             network := .ethereum, name := "W1" } := by
  rw [handleCreateWallet_success
    { name := "W1", network := .ethereum, passphrase := "pw123" } stubResp "k1"
    cexSealB 7 { wallets := [], newlyCreatedWallet := none }
    (by decide) (by decide) (by decide) (by simp)]
  rfl

/-- C8, amended: on success the disclosure payload (plaintext key, mnemonic
and address) is stored in the in-memory newlyCreatedWallet state and kept
there until the success modal is dismissed, which resets it to none; the
persisted record itself carries the key only as the Cipher seal. -/
theorem disclosure_lifecycle (form : CreateForm) (resp : ProviderResponse)
    (k : String) (cipherSeal : String → String → EncryptedBlob) (now : ℕ)
    (st : CreateState)
    (hname : form.name ≠ "") (hpass : form.passphrase ≠ "")
    (hkey : usableKey resp = some k)
    (hfresh : ∀ w ∈ st.wallets, w.id ≠ toString now) :
    ∃ w d, handleCreateWallet form true (.ok resp) cipherSeal now st =
        ({ wallets := st.wallets ++ [w], newlyCreatedWallet := some d },
         .created w d) ∧
      d.privateKey = k ∧ d.mnemonic = resp.mnemonic ∧ d.address = resp.address ∧
      w.encryptedPrivateKey = some (cipherSeal k form.passphrase) ∧
      dismissSuccessModal { wallets := st.wallets ++ [w], newlyCreatedWallet := some d } =
        { wallets := st.wallets ++ [w], newlyCreatedWallet := none } :=
  ⟨createdWallet form resp k cipherSeal now, disclosedOf form resp k,
    handleCreateWallet_success form resp k cipherSeal now st hname hpass hkey hfresh,
    rfl, rfl, rfl, rfl, rfl⟩

/-- C8, witness: the amended lifecycle at the spec creation vector. -/
theorem disclosure_lifecycle_witness :
    ∃ w d, handleCreateWallet { name := "W1", network := .ethereum, passphrase := "pw123" }
        true (.ok stubResp) cexSealA 7 { wallets := [], newlyCreatedWallet := none } =
        ({ wallets := [] ++ [w], newlyCreatedWallet := some d }, .created w d) ∧
      d.privateKey = "k1" ∧ d.mnemonic = some "m1 m2" ∧ d.address = "0xabc" ∧
      w.encryptedPrivateKey = some (cexSealA "k1" "pw123") ∧
      dismissSuccessModal { wallets := [] ++ [w], newlyCreatedWallet := some d } =
        { wallets := [] ++ [w], newlyCreatedWallet := none } := by
  obtain ⟨w, d, heq, h1, h2, h3, h4, h5⟩ :=
    disclosure_lifecycle { name := "W1", network := .ethereum, passphrase := "pw123" }
      stubResp "k1" cexSealA 7 { wallets := [], newlyCreatedWallet := none }
      (by decide) (by decide) (by decide) (by simp)
  exact ⟨w, d, heq, h1, by simpa [stubResp] using h2, by simpa [stubResp] using h3, h4, h5⟩

/-- C7, counterexample: a creation at Date.now() = 5 against a Store already
holding a record with id "5" is not retried with a fresh identifier: the
duplicate-id failure propagates to the catch block and is surfaced to the
user as an alert, with the collection unchanged. -/
theorem duplicate_id_not_retried_cex :
    handleCreateWallet { name := "W1", network := .ethereum, passphrase := "pw" }
        true (.ok stubResp) cexSealA 5 cexDupState =
      (cexDupState, .alerted .storeError) := by
  rfl

/-- C7, amended: within the (spec-modelled) Store, insert rejects a
duplicate id and a successful insert implies the id was fresh, preserving
pairwise-distinct ids; but a duplicate id during generated-wallet creation
is surfaced to the user through the catch-all alert rather than retried
with a fresh identifier. -/
theorem store_id_uniqueness (st st2 : List Wallet) (w : Wallet)
    (form : CreateForm) (resp : ProviderResponse)
    (cipherSeal : String → String → EncryptedBlob) (now : ℕ) (cst : CreateState) :
    ((∃ x ∈ st, x.id = w.id) → insertWallet st w = .error .duplicateId) ∧
    (insertWallet st w = .ok st2 → st2 = st ++ [w] ∧ ∀ x ∈ st, x.id ≠ w.id) ∧
    (insertWallet st w = .ok st2 → st.Pairwise (fun a b => a.id ≠ b.id) →
      st2.Pairwise (fun a b => a.id ≠ b.id)) ∧
    (form.name ≠ "" → form.passphrase ≠ "" → usableKey resp ≠ none →
      (∃ x ∈ cst.wallets, x.id = toString now) →
      handleCreateWallet form true (.ok resp) cipherSeal now cst =
        (cst, .alerted .storeError)) := by
  have hdup : (∃ x ∈ st, x.id = w.id) → insertWallet st w = .error .duplicateId := by
    intro h
    unfold insertWallet
    rw [if_pos]
    simpa [List.any_eq_true] using h
  have hok : insertWallet st w = .ok st2 → st2 = st ++ [w] ∧ ∀ x ∈ st, x.id ≠ w.id := by
    intro h
    unfold insertWallet at h
    by_cases hc : (st.any fun x => x.id = w.id) = true
    · rw [if_pos hc] at h
      exact absurd h (by simp)
    · rw [if_neg hc] at h
      injection h with h2
      refine ⟨h2.symm, ?_⟩
      · intro x hx
        simp only [List.any_eq_true, decide_eq_true_eq, not_exists] at hc
        exact fun hxe => hc x ⟨hx, hxe⟩
  refine ⟨hdup, hok, ?_, ?_⟩
  · intro h hp
    obtain ⟨h1, h2⟩ := hok h
    subst h1
    rw [List.pairwise_append]
    exact ⟨hp, List.pairwise_singleton _ _, by simpa using h2⟩
  · intro hname hpass hkey hcol
    obtain ⟨k, hk⟩ := Option.ne_none_iff_exists.mp hkey
    have hany : (cst.wallets.any fun x => x.id = toString now) = true := by
      simpa [List.any_eq_true] using hcol
    simp [handleCreateWallet, hname, hpass, ← hk, insertWallet, hany]

/-- C7, witness: the Store rejects inserting a second record with id "5",
and a creation colliding at Date.now() = 5 is surfaced as an alert. -/
theorem store_id_uniqueness_witness :
    insertWallet cexDupState.wallets cexDupWallet = .error .duplicateId ∧
    handleCreateWallet { name := "W9", network := .ethereum, passphrase := "pw9" }
        true (.ok { address := "0x9", key := some "k9", mnemonic := none })
        cexSealA 5 cexDupState =
      (cexDupState, .alerted .storeError) := by
  refine ⟨?_, ?_⟩
  · exact (store_id_uniqueness cexDupState.wallets [] cexDupWallet
      { name := "W9", network := .ethereum, passphrase := "pw9" }
      { address := "0x9", key := some "k9", mnemonic := none }
      cexSealA 5 cexDupState).1 (by decide)
  · exact (store_id_uniqueness cexDupState.wallets [] cexDupWallet
      { name := "W9", network := .ethereum, passphrase := "pw9" }
      { address := "0x9", key := some "k9", mnemonic := none }
      cexSealA 5 cexDupState).2.2.2 (by decide) (by decide) (by decide) (by decide)

/-- A manual add whose guard passes and whose identifier is fresh in the
Store persists manualWallet and appends it to the state. -/
lemma handleAddWallet_success (form : AddForm) (now : ℕ) (st : List Wallet)
    (hname : form.name ≠ "") (haddr : form.address ≠ "")
    (hbal : form.balance ≠ "") (husd : form.balanceUSD ≠ "")
    (hfresh : ∀ w ∈ st, w.id ≠ toString now) :
    handleAddWallet form true now st =
      (st ++ [manualWallet form now], .added (manualWallet form now)) := by
  have hany : (st.any fun x => x.id = toString now) = false := by
    rw [List.any_eq_false]
    intro x hx
    simpa using hfresh x hx
  simp [handleAddWallet, manualWallet, insertWallet, hname, haddr, hbal, husd, hany]

/-- C4, counterexample: the balance field "abc" of cexAddForm does not parse
as a number, yet handleAddWallet does not fail before the Store call: it
persists a record (whose balance is NaN), so the collection changes and no
InvalidInput failure is surfaced. -/
theorem manual_add_validation_cex :
    parseFloat cexAddForm.balance = none ∧
    handleAddWallet cexAddForm true 0 [] = ([cexNaNWallet], .added cexNaNWallet) := by
  have hw : manualWallet cexAddForm 0 = cexNaNWallet := by
    norm_num +decide [manualWallet, cexAddForm, cexNaNWallet, parseFloat,
      takeDigits, digitsToNat, charToNat0, charToNat3]
  refine ⟨by norm_num +decide [cexAddForm, parseFloat, takeDigits, digitsToNat], ?_⟩
  rw [handleAddWallet_success cexAddForm 0 [] (by decide) (by decide) (by decide)
    (by decide) (by simp), hw]
  rfl

/-- C4, amended: a missing (empty) balance or balanceUSD field makes the
handler return before any Store call with the collection unchanged, but
silently, with no surfaced error; a non-empty balance that does not parse
as a number is not rejected at all: the record is persisted with a NaN
balance. -/
theorem manual_add_validation_behavior (form : AddForm) (db : Bool) (now : ℕ)
    (st : List Wallet) :
    (form.balance = "" ∨ form.balanceUSD = "" →
      handleAddWallet form db now st = (st, .silentReturn)) ∧
    (form.name ≠ "" → form.address ≠ "" → form.balance ≠ "" → form.balanceUSD ≠ "" →
      parseFloat form.balance = none →
      (∀ w ∈ st, w.id ≠ toString now) →
      ∃ w, handleAddWallet form true now st = (st ++ [w], .added w) ∧
        w.balance = none) := by
  refine ⟨?_, ?_⟩
  · rintro (h | h) <;> simp [handleAddWallet, h]
  · intro hname haddr hbal husd hnan hfresh
    refine ⟨manualWallet form now,
      handleAddWallet_success form now st hname haddr hbal husd hfresh, ?_⟩
    simpa [manualWallet] using hnan

/-- C4, witness: the amended behavior at an empty balance field (silent
return) and at the non-numeric balance "abc" (record persisted with NaN
balance). -/
theorem manual_add_validation_behavior_witness :
    handleAddWallet emptyBalForm true 0 [] = ([], .silentReturn) ∧
    ∃ w, handleAddWallet cexAddForm true 0 [] = ([] ++ [w], .added w) ∧
      w.balance = none := by
  refine ⟨?_, ?_⟩
  · exact (manual_add_validation_behavior emptyBalForm true 0 []).1 (Or.inl rfl)
  · exact (manual_add_validation_behavior cexAddForm true 0 []).2
      (by decide) (by decide) (by decide) (by decide)
      (by norm_num +decide [cexAddForm, parseFloat, takeDigits, digitsToNat])
      (by simp)

/-- C5: a valid manual-add request (all fields supplied, both balance fields
parsing as numbers, fresh id) persists a record carrying the given address
and the parsed balances, with zero change fields, empty token and
transaction lists, and no encrypted fields. -/
theorem manual_add_record_shape (form : AddForm) (now : ℕ) (st : List Wallet)
    (b u : ℚ)
    (hname : form.name ≠ "") (haddr : form.address ≠ "")
    (hbal : parseFloat form.balance = some b)
    (husd : parseFloat form.balanceUSD = some u)
    (hfresh : ∀ w ∈ st, w.id ≠ toString now) :
    ∃ w, handleAddWallet form true now st = (st ++ [w], .added w) ∧
      w.id = toString now ∧ w.name = form.name ∧ w.address = form.address ∧
      w.network = form.network ∧ w.balance = some b ∧ w.balanceUSD = some u ∧
      w.change24h = some 0 ∧ w.changePercent24h = some 0 ∧
      w.tokens = [] ∧ w.transactions = [] ∧
      w.encryptedPrivateKey = none ∧ w.encryptedMnemonic = none := by
  have hempty : parseFloat "" = none := by decide
  have hbne : form.balance ≠ "" := by
    intro h
    rw [h, hempty] at hbal
    cases hbal
  have hune : form.balanceUSD ≠ "" := by
    intro h
    rw [h, hempty] at husd
    cases husd
  refine ⟨manualWallet form now,
    handleAddWallet_success form now st hname haddr hbne hune hfresh,
    rfl, rfl, rfl, rfl, ?_, ?_, rfl, rfl, rfl, rfl, rfl, rfl⟩
  · simpa [manualWallet] using hbal
  · simpa [manualWallet] using husd

/-- C5, witness: the spec manual-add vector W2 / 0xdef / bnb / 1.5 / 300.00
yields a record with balanceUSD = 300 and no encrypted fields. -/
theorem manual_add_record_shape_witness :
    ∃ w, handleAddWallet addVecForm true 0 [] = ([] ++ [w], .added w) ∧
      w.address = "0xdef" ∧ w.balance = some (3 / 2 : ℚ) ∧ w.balanceUSD = some 300 ∧
      w.encryptedPrivateKey = none ∧ w.encryptedMnemonic = none := by
  obtain ⟨w, heq, -, -, haddr, -, hb, hu, -, -, -, -, hpk, hmn⟩ :=
    manual_add_record_shape addVecForm 0 [] (3 / 2) 300 (by decide) (by decide)
      (by norm_num +decide [addVecForm, parseFloat, takeDigits, digitsToNat,
        charToNat1, charToNat5])
      (by norm_num +decide [addVecForm, parseFloat, takeDigits, digitsToNat,
        charToNat0, charToNat3])
      (by simp)
  exact ⟨w, heq, by simpa [addVecForm] using haddr, hb, hu, hpk, hmn⟩

/-- C10: a successful insertion, through either the manual-add handler or
the creation handler, yields exactly the previous collection with the new
record appended at the end; all pre-existing records are untouched. -/
lemma insertWallet_ok {st st2 : List Wallet} {w : Wallet}
    (h : insertWallet st w = .ok st2) : st2 = st ++ [w] := by
  unfold insertWallet at h
  split at h
  · exact absurd h (by simp)
  · injection h with h
    exact h.symm

theorem insertion_appends (addF : AddForm) (db : Bool) (now : ℕ)
    (st : List Wallet) (w : Wallet) (d : Disclosed) (cForm : CreateForm)
    (db2 : Bool) (provider : Except Unit ProviderResponse)
    (cipherSeal : String → String → EncryptedBlob) (now2 : ℕ) (cst : CreateState) :
    ((handleAddWallet addF db now st).2 = .added w →
      (handleAddWallet addF db now st).1 = st ++ [w]) ∧
    ((handleCreateWallet cForm db2 provider cipherSeal now2 cst).2 = .created w d →
      (handleCreateWallet cForm db2 provider cipherSeal now2 cst).1.wallets =
        cst.wallets ++ [w]) := by
  constructor
  · unfold handleAddWallet
    split
    · intro h
      simp at h
    · dsimp only
      split
      · rename_i st2 heq
        intro h
        cases h
        exact insertWallet_ok heq
      · intro h
        simp at h
  · unfold handleCreateWallet
    split
    · intro h
      simp at h
    · split
      · intro h
        simp at h
      · split
        · intro h
          simp at h
        · dsimp only
          split
          · intro h
            simp at h
          · rename_i ws heq
            intro h
            cases h
            exact insertWallet_ok heq

/-- C10, witness: concrete successful runs of both handlers append the new
record to the previous (empty) collection. -/
theorem insertion_appends_witness :
    (handleAddWallet addVecForm true 0 []).1 = [] ++ [manualWallet addVecForm 0] ∧
    (handleCreateWallet { name := "W1", network := .ethereum, passphrase := "pw123" }
        true (.ok stubResp) cexSealA 7
        { wallets := [], newlyCreatedWallet := none }).1.wallets =
      [] ++ [createdWallet { name := "W1", network := .ethereum, passphrase := "pw123" }
        stubResp "k1" cexSealA 7] := by
  constructor
  · refine (insertion_appends addVecForm true 0 [] (manualWallet addVecForm 0)
      (disclosedOf { name := "W1", network := .ethereum, passphrase := "pw123" } stubResp "k1")
      { name := "W1", network := .ethereum, passphrase := "pw123" } true (.ok stubResp)
      cexSealA 7 { wallets := [], newlyCreatedWallet := none }).1 ?_
    rw [handleAddWallet_success addVecForm 0 [] (by decide) (by decide) (by decide)
      (by decide) (by simp)]
  · refine (insertion_appends addVecForm true 0 []
      (createdWallet { name := "W1", network := .ethereum, passphrase := "pw123" }
        stubResp "k1" cexSealA 7)
      (disclosedOf { name := "W1", network := .ethereum, passphrase := "pw123" } stubResp "k1")
      { name := "W1", network := .ethereum, passphrase := "pw123" } true (.ok stubResp)
      cexSealA 7 { wallets := [], newlyCreatedWallet := none }).2 ?_
    rw [handleCreateWallet_success { name := "W1", network := .ethereum, passphrase := "pw123" }
      stubResp "k1" cexSealA 7 { wallets := [], newlyCreatedWallet := none }
      (by decide) (by decide) (by decide) (by simp)]

end Vollet

